import Mathlib

/-!
Verification of the wall-harp designer's string-physics and tuning model.

The definitions below are a shallow embedding of the JavaScript sources:
`constants.js` (material/gauge registries, physics constants, scales),
the physics engine (`calculateFrequencyFromLength`, `frequencyToMidi`,
`midiToFrequency`, `midiToNoteName`, `getCentsDeviation`, `clamp`),
`string.js` (`HarpString` and the tuning operations), and the
configuration import / selection / quantization code.  JavaScript numbers
are modelled as real numbers, absent fields (`null` / `undefined`) as
`Option`, and methods as pure functions from state to state.
-/

namespace WallHarp

/-- Registered string materials: the keys of the `STRING_MATERIALS`
registry in `constants.js`. -/
inductive MaterialKey
  | steel
  | nylon
  | gut
  | bronze
  | phosphorBronze
deriving DecidableEq, Repr

/-- The `density` field (kg/m^3) of each registered material
(`STRING_MATERIALS` in `constants.js`). -/
def materialDensity : MaterialKey → ℝ
  | .steel => 7850
  | .nylon => 1140
  | .gut => 1300
  | .bronze => 8800
  | .phosphorBronze => 8900

/-- Registered string gauges: the keys of the `STRING_GAUGES` registry in
`constants.js`. -/
inductive GaugeKey
  | extraLight
  | light
  | medium
  | heavy
  | extraHeavy
deriving DecidableEq, Repr

/-- The `diameter` field (mm) of each registered gauge (`STRING_GAUGES` in
`constants.js`). -/
def gaugeDiameter : GaugeKey → ℝ
  | .extraLight => 0.25
  | .light => 0.35
  | .medium => 0.50
  | .heavy => 0.70
  | .extraHeavy => 0.90

/-- `PHYSICS_CONSTANTS.FULL_STRING_LENGTH` (mm). -/
def FULL_STRING_LENGTH : ℝ := 2134

/-- `PHYSICS_CONSTANTS.WALL_WIDTH` (mm). -/
def WALL_WIDTH : ℝ := 7830

/-- `PHYSICS_CONSTANTS.MIN_CAPO_DISTANCE` (mm). -/
def MIN_CAPO_DISTANCE : ℝ := 50

/-- `PHYSICS_CONSTANTS.MIN_PLAYABLE_LENGTH` (mm). -/
def MIN_PLAYABLE_LENGTH : ℝ := 50

/-- `PHYSICS_CONSTANTS.MAX_PLAYABLE_LENGTH` (mm). -/
def MAX_PLAYABLE_LENGTH : ℝ := 2000

/-- `VISUAL_CONSTANTS.CANVAS_WIDTH` (px). -/
def CANVAS_WIDTH : ℝ := 1000

/-- `VISUAL_CONSTANTS.CANVAS_HEIGHT` (px). -/
def CANVAS_HEIGHT : ℝ := 700

/-- The `clamp` helper of the physics engine:
`Math.max(min, Math.min(max, value))`. -/
noncomputable def clamp (value min max : ℝ) : ℝ :=
  Max.max min (Min.min max value)

/-- `PHYSICS_CONSTANTS.calculateWaveSpeed`: `v = sqrt(T / μ)` with
`μ = π r² ρ`, `r = (diameterMm/2)/1000`. -/
noncomputable def calculateWaveSpeed (material : MaterialKey) (gauge : GaugeKey)
    (tension : ℝ) : ℝ :=
  let radius := (gaugeDiameter gauge / 2) / 1000
  let linearDensity := Real.pi * radius * radius * materialDensity material
  Real.sqrt (tension / linearDensity)

/-- Physics-engine `calculateFrequencyFromLength`: `f = v / (2 L)` with the
length given in mm. -/
noncomputable def calculateFrequencyFromLength (lengthMm : ℝ)
    (material : MaterialKey) (gauge : GaugeKey) (tension : ℝ) : ℝ :=
  let waveSpeed := calculateWaveSpeed material gauge tension
  let lengthM := lengthMm / 1000
  waveSpeed / (2 * lengthM)

/-- Physics-engine `calculateLengthFromFrequency`: `L = v / (2 f)`,
converted to mm. -/
noncomputable def calculateLengthFromFrequency (frequency : ℝ)
    (material : MaterialKey) (gauge : GaugeKey) (tension : ℝ) : ℝ :=
  let waveSpeed := calculateWaveSpeed material gauge tension
  let lengthM := waveSpeed / (2 * frequency)
  lengthM * 1000

/-- Physics-engine `frequencyToMidi`: `69 + 12·log2(f/440)`. -/
noncomputable def frequencyToMidi (frequency : ℝ) : ℝ :=
  69 + 12 * Real.logb 2 (frequency / 440)

/-- Physics-engine `midiToFrequency`: `440·2^((m−69)/12)`. -/
noncomputable def midiToFrequency (midiNote : ℝ) : ℝ :=
  440 * (2 : ℝ) ^ ((midiNote - 69) / 12)

/-- The fixed 12-name note table of `midiToNoteName` (written in two
halves; the source has the single array literal C, C#, D, D#, E, F, F#,
G, G#, A, A#, B). -/
def noteNames : List String :=
  ["C", "C#", "D", "D#", "E", "F"] ++ ["F#", "G", "G#", "A", "A#", "B"]

/-- Physics-engine `midiToNoteName`.  `Math.round` is round-half-up
(Mathlib's `round`), `Math.floor(rounded/12)` on integers is flooring
division, and JavaScript `%` is the truncating remainder `Int.tmod`; a
negative remainder indexes outside the table, which JavaScript renders as
the string `undefined`. -/
noncomputable def midiToNoteName (midiNote : ℝ) : String :=
  let rounded : ℤ := round midiNote
  let octave : ℤ := Int.fdiv rounded 12 - 1
  let idx : ℤ := Int.tmod rounded 12
  let noteName : String :=
    if 0 ≤ idx then noteNames.getD idx.toNat "undefined" else "undefined"
  noteName ++ toString octave

/-- Physics-engine `getCentsDeviation`: `(midi − round(midi)) · 100`. -/
noncomputable def getCentsDeviation (midiNote : ℝ) : ℝ :=
  (midiNote - round midiNote) * 100

/-- The note-name computation as the spec's wording states it: the table is
indexed by the mathematical residue `rounded mod 12`, normalized to
`[0, 11]` (compare with `midiToNoteName`, which uses the JavaScript
truncating remainder). -/
noncomputable def specNoteName (midiNote : ℝ) : String :=
  let rounded : ℤ := round midiNote
  noteNames.getD (rounded % 12).toNat "undefined" ++
    toString (Int.fdiv rounded 12 - 1)

/-- The per-string mutable state of `HarpString` (`string.js`), with
JavaScript numbers as reals and nullable draw-mode coordinates as
`Option ℝ`.  The material color (an RGB copy of the registry entry) is not
modelled; no claim mentions it. -/
structure HarpState where
  index : ℕ
  totalStrings : ℕ
  targetMidiNote : ℝ
  material : MaterialKey
  gauge : GaugeKey
  tension : ℝ
  targetFrequency : ℝ
  targetLengthMm : ℝ
  lowerCapoMm : ℝ
  upperCapoMm : ℝ
  xPos : ℝ
  isPlaying : Bool
  playingAmplitude : ℝ
  isSelected : Bool
  isDraggingLowerCapo : Bool
  isDraggingUpperCapo : Bool
  drawMode : Bool
  startX : Option ℝ
  startY : Option ℝ
  endX : Option ℝ
  endY : Option ℝ
  isDraggingStart : Bool
  isDraggingEnd : Bool
  playableLengthMm : ℝ
  actualFrequency : ℝ
  actualMidiNote : ℝ
  noteName : String
  centsDeviation : ℝ
  playableLengthFeet : ℝ
  lowerCapoFeet : ℝ
  upperCapoFeet : ℝ

/-- `HarpString.calculateLengthFromFrequency` (uses the string's own
material, gauge and tension). -/
noncomputable def HarpState.calculateLengthFromFrequency (s : HarpState)
    (frequency : ℝ) : ℝ :=
  let waveSpeed := calculateWaveSpeed s.material s.gauge s.tension
  let lengthMeters := waveSpeed / (2 * frequency)
  lengthMeters * 1000

/-- `HarpString.calculateFrequencyFromLength` (uses the string's own
material, gauge and tension). -/
noncomputable def HarpState.calculateFrequencyFromLength (s : HarpState)
    (lengthMm : ℝ) : ℝ :=
  let waveSpeed := calculateWaveSpeed s.material s.gauge s.tension
  let lengthMeters := lengthMm / 1000
  waveSpeed / (2 * lengthMeters)

/-- `HarpString.calculateDrawLength` with the default height reference
(`VISUAL_CONSTANTS.CANVAS_HEIGHT`; the only in-source caller passes no
canvas height).  Unset y-coordinates coerce to 0, as JavaScript `null`
does in arithmetic. -/
noncomputable def HarpState.calculateDrawLength (s : HarpState) : ℝ :=
  if !s.drawMode || s.startX.isNone || s.endX.isNone then
    s.playableLengthMm
  else
    let dx := s.endX.getD 0 - s.startX.getD 0
    let dy := s.endY.getD 0 - s.startY.getD 0
    let pixelLength := Real.sqrt (dx * dx + dy * dy)
    let lengthMm := pixelLength * (FULL_STRING_LENGTH / CANVAS_HEIGHT)
    max lengthMm MIN_PLAYABLE_LENGTH

/-- `HarpString.updateCalculations`: recomputes every derived field from the
current positions and material. -/
noncomputable def HarpState.updateCalculations (s : HarpState) : HarpState :=
  let len :=
    if s.drawMode && s.startX.isSome && s.endX.isSome then s.calculateDrawLength
    else s.upperCapoMm - s.lowerCapoMm
  let freq := s.calculateFrequencyFromLength len
  { s with
    playableLengthMm := len
    actualFrequency := freq
    actualMidiNote := frequencyToMidi freq
    noteName := midiToNoteName (frequencyToMidi freq)
    centsDeviation := getCentsDeviation (frequencyToMidi freq)
    playableLengthFeet := len / 304.8
    lowerCapoFeet := s.lowerCapoMm / 304.8
    upperCapoFeet := s.upperCapoMm / 304.8 }

/-- `HarpString.initializeCapoPositions`: centers the clamped target length
in the full string and clamps both ends into the capo zone; always ends in
`updateCalculations`.  The two bound-fixing `if` blocks of the source are
value-level here (each assigns both capo fields). -/
noncomputable def HarpState.initializeCapoPositions (s : HarpState) : HarpState :=
  let clampedLength := clamp s.targetLengthMm MIN_PLAYABLE_LENGTH MAX_PLAYABLE_LENGTH
  let centerOfString := FULL_STRING_LENGTH / 2
  let lower0 := centerOfString - clampedLength / 2
  let upper0 := centerOfString + clampedLength / 2
  let p1 :=
    if lower0 < MIN_CAPO_DISTANCE then
      (MIN_CAPO_DISTANCE, MIN_CAPO_DISTANCE + clampedLength)
    else (lower0, upper0)
  let p2 :=
    if p1.2 > FULL_STRING_LENGTH - MIN_CAPO_DISTANCE then
      (FULL_STRING_LENGTH - MIN_CAPO_DISTANCE - clampedLength,
        FULL_STRING_LENGTH - MIN_CAPO_DISTANCE)
    else p1
  HarpState.updateCalculations { s with lowerCapoMm := p2.1, upperCapoMm := p2.2 }

/-- `HarpString.setMaterial` (the color copy is not modelled). -/
noncomputable def HarpState.setMaterial (s : HarpState) (material : MaterialKey)
    (gauge : GaugeKey) (tension : ℝ) : HarpState :=
  let s1 := { s with material := material, gauge := gauge, tension := tension }
  let s2 := { s1 with
    targetLengthMm := s1.calculateLengthFromFrequency s1.targetFrequency }
  s2.initializeCapoPositions

/-- `HarpString.setLowerCapoPosition`. -/
noncomputable def HarpState.setLowerCapoPosition (s : HarpState)
    (positionMm : ℝ) : HarpState :=
  HarpState.updateCalculations
    { s with lowerCapoMm :=
        clamp positionMm MIN_CAPO_DISTANCE (s.upperCapoMm - MIN_PLAYABLE_LENGTH) }

/-- `HarpString.setUpperCapoPosition`. -/
noncomputable def HarpState.setUpperCapoPosition (s : HarpState)
    (positionMm : ℝ) : HarpState :=
  let maxPos := FULL_STRING_LENGTH - MIN_CAPO_DISTANCE
  HarpState.updateCalculations
    { s with upperCapoMm :=
        clamp positionMm (s.lowerCapoMm + MIN_PLAYABLE_LENGTH) maxPos }

/-- The `HarpString` constructor.  Capo fields are assigned by the
`initializeCapoPositions` call it ends with; derived fields by the
`updateCalculations` that this triggers (they start from placeholder
zeros, as the source leaves them `undefined` until then). -/
noncomputable def harpStringNew (index totalStrings : ℕ) (targetMidiNote : ℝ)
    (material : MaterialKey) (gauge : GaugeKey) (tension : ℝ) : HarpState :=
  let targetFrequency := midiToFrequency targetMidiNote
  let s0 : HarpState :=
    { index := index
      totalStrings := totalStrings
      targetMidiNote := targetMidiNote
      material := material
      gauge := gauge
      tension := tension
      targetFrequency := targetFrequency
      targetLengthMm :=
        calculateLengthFromFrequency targetFrequency material gauge tension
      lowerCapoMm := 0
      upperCapoMm := 0
      xPos := ((index : ℝ) + 0.5) * (WALL_WIDTH / (totalStrings : ℝ))
      isPlaying := false
      playingAmplitude := 0
      isSelected := false
      isDraggingLowerCapo := false
      isDraggingUpperCapo := false
      drawMode := false
      startX := none
      startY := none
      endX := none
      endY := none
      isDraggingStart := false
      isDraggingEnd := false
      playableLengthMm := 0
      actualFrequency := 0
      actualMidiNote := 0
      noteName := ""
      centsDeviation := 0
      playableLengthFeet := 0
      lowerCapoFeet := 0
      upperCapoFeet := 0 }
  s0.initializeCapoPositions

/-- One mutation of the C1 reachability property: a `setLowerCapoPosition`,
`setUpperCapoPosition` or `setMaterial` call. -/
inductive StringOp
  | setLower (positionMm : ℝ)
  | setUpper (positionMm : ℝ)
  | setMat (material : MaterialKey) (gauge : GaugeKey) (tension : ℝ)

/-- Apply one `StringOp` to a string state. -/
noncomputable def applyOp (s : HarpState) : StringOp → HarpState
  | .setLower p => s.setLowerCapoPosition p
  | .setUpper p => s.setUpperCapoPosition p
  | .setMat m g t => s.setMaterial m g t

/-- Apply a sequence of `StringOp`s from left to right. -/
noncomputable def applyOps (s : HarpState) : List StringOp → HarpState
  | [] => s
  | op :: ops => applyOps (applyOp s op) ops

/-- The claim's precondition on a mutation: `setMaterial` is called with
positive tension (material and gauge are registered by construction of
`MaterialKey`/`GaugeKey`). -/
def StringOp.valid : StringOp → Prop
  | .setMat _ _ t => 0 < t
  | _ => True

/-- The capo-position invariant of C1. -/
def capoInvariant (s : HarpState) : Prop :=
  MIN_CAPO_DISTANCE ≤ s.lowerCapoMm ∧ s.lowerCapoMm < s.upperCapoMm ∧
    s.upperCapoMm ≤ FULL_STRING_LENGTH - MIN_CAPO_DISTANCE ∧
    MIN_PLAYABLE_LENGTH ≤ s.upperCapoMm - s.lowerCapoMm

/-- The selection update of `InteractionManager.handleMousePressed`
(`interaction.js`, pluck/adjust modes): single select replaces the
selection with the pressed index; a multi-select press toggles the index
out of (`splice` of the first occurrence) or into (`push`) the selection,
and reinstates the pressed index when removal would leave the selection
empty.  The pluck and capo-drag side effects do not touch the
selection. -/
def handleMousePressedSelection (sel : List ℕ) (stringIndex : ℕ)
    (isMultiSelect : Bool) : List ℕ :=
  if isMultiSelect then
    if stringIndex ∈ sel then
      let removed := sel.erase stringIndex
      if removed = [] then [stringIndex] else removed
    else sel ++ [stringIndex]
  else [stringIndex]

/-- A sequence of mouse presses (`stringIndex`, `isMultiSelect`), applied
left to right. -/
def applyPresses (sel : List ℕ) : List (ℕ × Bool) → List ℕ
  | [] => sel
  | p :: ps => applyPresses (handleMousePressedSelection sel p.1 p.2) ps

/-- Registered scales: the keys of the `SCALES` registry in
`constants.js`. -/
inductive ScaleKey
  | chromatic
  | major
  | minor
  | pentatonicMajor
  | pentatonicMinor
  | blues
  | wholeTone
  | harmonicMinor
  | dorian
  | phrygian
  | lydian
  | mixolydian
  | locrian
  | harmonicSeries
deriving DecidableEq, Repr

/-- The `intervals` field of each registered scale (`SCALES` in
`constants.js`). -/
def scaleIntervals : ScaleKey → List ℤ
  | .chromatic => [0, 1, 2, 3, 4, 5, 6, 7, 8, 9, 10, 11]
  | .major => [0, 2, 4, 5, 7, 9, 11]
  | .minor => [0, 2, 3, 5, 7, 8, 10]
  | .pentatonicMajor => [0, 2, 4, 7, 9]
  | .pentatonicMinor => [0, 3, 5, 7, 10]
  | .blues => [0, 3, 5, 6, 7, 10]
  | .wholeTone => [0, 2, 4, 6, 8, 10]
  | .harmonicMinor => [0, 2, 3, 5, 7, 8, 11]
  | .dorian => [0, 2, 3, 5, 7, 9, 10]
  | .phrygian => [0, 1, 3, 5, 7, 8, 10]
  | .lydian => [0, 2, 4, 6, 7, 9, 11]
  | .mixolydian => [0, 2, 4, 5, 7, 9, 10]
  | .locrian => [0, 1, 3, 5, 6, 8, 10]
  | .harmonicSeries => [0, 12, 19, 24, 28, 31, 34, 36, 38, 40]

/-- The `OCTAVE_RANGE` constant of `applyScale` (6 octaves). -/
def OCTAVE_RANGE : ℤ := 6

/-- The `while (targetMidi >= maxMidi) targetMidi -= OCTAVE_RANGE * 12`
loop of `applyScale`. -/
def octaveLoop (maxMidi t : ℤ) : ℤ :=
  if t ≥ maxMidi then octaveLoop maxMidi (t - OCTAVE_RANGE * 12) else t
termination_by (t - maxMidi + OCTAVE_RANGE * 12).toNat
decreasing_by simp only [OCTAVE_RANGE] at *; omega

/-- The per-string target computation of `applyScale`: interval lookup by
`index % intervals.length`, octave stacking by `floor(index / length)`,
then the octave-looping reduction below `rootMidi + OCTAVE_RANGE * 12`. -/
def applyScaleTargetMidi (scale : ScaleKey) (rootMidi : ℤ) (i : ℕ) : ℤ :=
  let intervals := scaleIntervals scale
  let scaleIndex := i % intervals.length
  let octave := i / intervals.length
  let targetMidi := rootMidi + intervals.getD scaleIndex 0 + (octave : ℤ) * 12
  octaveLoop (rootMidi + OCTAVE_RANGE * 12) targetMidi

/-- `applyScale` over a string collection: per string, set the target MIDI
note, frequency and ideal length, then re-initialize the capos. -/
noncomputable def applyScale (strings : List HarpState) (scale : ScaleKey)
    (rootMidi : ℤ) : List HarpState :=
  strings.mapIdx fun index s =>
    let targetMidi := applyScaleTargetMidi scale rootMidi index
    let targetFreq := midiToFrequency (targetMidi : ℝ)
    let idealLength := s.calculateLengthFromFrequency targetFreq
    HarpState.initializeCapoPositions
      { s with
        targetMidiNote := (targetMidi : ℝ)
        targetFrequency := targetFreq
        targetLengthMm := idealLength }

/-- The per-string record handed to `HarpString.setStringData` and the
configuration importer: the persisted subset of fields, each possibly
absent.  Numeric fields hold the already-parsed values (`parseFloat` of a
finite number is that number). -/
structure StringData where
  index : Option ℕ := none
  lowerCapoMm : Option ℝ := none
  upperCapoMm : Option ℝ := none
  targetMidiNote : Option ℝ := none
  actualFrequency : Option ℝ := none
  noteName : Option String := none
  drawMode : Option Bool := none
  startX : Option ℝ := none
  startY : Option ℝ := none
  endX : Option ℝ := none
  endY : Option ℝ := none
  material : Option MaterialKey := none
  gauge : Option GaugeKey := none
  tension : Option ℝ := none

/-- `HarpString.setStringData` (`string.js`): writes the capo fields and
the target MIDI note verbatim when present, calls `setMaterial` when
material, gauge and tension are all present, then `updateCalculations`. -/
noncomputable def HarpState.setStringData (s : HarpState)
    (data : StringData) : HarpState :=
  let s1 := match data.lowerCapoMm with
    | some v => { s with lowerCapoMm := v }
    | none => s
  let s2 := match data.upperCapoMm with
    | some v => { s1 with upperCapoMm := v }
    | none => s1
  let s3 := match data.targetMidiNote with
    | some v => { s2 with targetMidiNote := v }
    | none => s2
  let s4 := match data.material, data.gauge, data.tension with
    | some m, some g, some t => s3.setMaterial m g t
    | _, _, _ => s3
  s4.updateCalculations

/-- A parsed configuration object of the persisted JSON schema
(v1.0/v2.0); fields may be absent. -/
structure Config where
  version : Option String := none
  numStrings : Option ℕ := none
  strings : Option (List StringData) := none

/-- The per-string body of the `importConfiguration` loop:
`setStringData`, then the v2.0 draw-mode application when a `drawMode`
field is present (material/gauge/tension are applied under JavaScript
truthiness, so a present-but-zero tension is skipped). -/
noncomputable def importStringData (s : HarpState) (d : StringData) :
    HarpState :=
  let s1 := s.setStringData d
  match d.drawMode with
  | none => s1
  | some dm =>
    let s2 := { s1 with
      drawMode := dm
      startX := d.startX
      startY := d.startY
      endX := d.endX
      endY := d.endY }
    let s3 := match d.material with
      | some m => { s2 with material := m }
      | none => s2
    let s4 := match d.gauge with
      | some g => { s3 with gauge := g }
      | none => s3
    let s5 := match d.tension with
      | some t => if t = 0 then s4 else { s4 with tension := t }
      | none => s4
    s5.updateCalculations

/-- The `config.strings.forEach` of `importConfiguration`: positional
application; strings beyond the configuration records (or records beyond
the collection) are left alone. -/
noncomputable def importStrings :
    List HarpState → List StringData → List HarpState
  | ss, [] => ss
  | [], _ => []
  | s :: ss, d :: ds => importStringData s d :: importStrings ss ds

/-- `importConfiguration` (`CHANGELOG.md`): fails on a missing `version`
or `strings` field or on a string-count mismatch, otherwise applies the
per-string records positionally; returns the success flag and the
resulting collection. -/
noncomputable def importConfiguration (config : Config)
    (strings : List HarpState) : Bool × List HarpState :=
  if config.version.isNone || config.strings.isNone then (false, strings)
  else if config.numStrings ≠ some strings.length then (false, strings)
  else (true, importStrings strings (config.strings.getD []))

/-- JavaScript whitespace, for `String.prototype.trim`. -/
def jsWhitespace (c : Char) : Bool :=
  c = ' ' || c = '\t' || c = '\n' || c = '\r'

/-- JavaScript `trim()` over a character list. -/
def jsTrim (cs : List Char) : List Char :=
  ((cs.dropWhile jsWhitespace).reverse.dropWhile jsWhitespace).reverse

/-- JavaScript `split(sep)` for a one-character separator, over character
lists. -/
def splitOnChar (sep : Char) : List Char → List (List Char)
  | [] => [[]]
  | c :: rest =>
    let r := splitOnChar sep rest
    if c = sep then [] :: r
    else (c :: r.headD []) :: r.tail

/-- Numeric value of a decimal digit run. -/
def digitsVal (cs : List Char) : ℕ :=
  cs.foldl (fun a c => a * 10 + (c.toNat - 48)) 0

/-- JavaScript `parseInt` on a trimmed string, decimal form: an optional
sign followed by a maximal leading digit run; `none` models `NaN`.  (The
`0x` auto-detection of `parseInt` is not modelled; no claim exercises
it.) -/
def jsParseInt (cs : List Char) : Option ℤ :=
  let signAndRest : ℤ × List Char :=
    match cs with
    | '-' :: r => (-1, r)
    | '+' :: r => (1, r)
    | r => (1, r)
  let digits := signAndRest.2.takeWhile Char.isDigit
  if digits.isEmpty then none
  else some (signAndRest.1 * (digitsVal digits : ℤ))

/-- The exponent suffix of `parseFloat`: an optional sign and digits;
contributes nothing when no digits follow. -/
def jsParseExp (cs : List Char) : ℤ :=
  let signAndRest : ℤ × List Char :=
    match cs with
    | '-' :: r => (-1, r)
    | '+' :: r => (1, r)
    | r => (1, r)
  let digits := signAndRest.2.takeWhile Char.isDigit
  if digits.isEmpty then 0 else signAndRest.1 * (digitsVal digits : ℤ)

/-- JavaScript `parseFloat` on a trimmed string: optional sign, integer
digits, optional fraction after a dot, optional `e`/`E` exponent; `none`
models `NaN` (no digit in either the integer or the fraction part).
Parsing stops at the first unexpected character, as in JavaScript.  The
exact value is returned as a pair `(m, e)` denoting `m · 10^e`
(`jsFloatVal`): integer and fraction digits merged into the integer
mantissa `m`, the fraction length subtracted from the exponent. -/
def jsParseFloat (cs : List Char) : Option (ℤ × ℤ) :=
  let signAndRest : ℤ × List Char :=
    match cs with
    | '-' :: r => (-1, r)
    | '+' :: r => (1, r)
    | r => (1, r)
  let r1 := signAndRest.2
  let intDigits := r1.takeWhile Char.isDigit
  let r2 := r1.drop intDigits.length
  let fracAndRest : List Char × List Char :=
    match r2 with
    | '.' :: r => (r.takeWhile Char.isDigit,
        r.drop (r.takeWhile Char.isDigit).length)
    | _ => ([], r2)
  if intDigits.isEmpty && fracAndRest.1.isEmpty then none
  else
    let mantissa : ℤ := signAndRest.1 *
      ((digitsVal intDigits : ℤ) * (10 : ℤ) ^ fracAndRest.1.length +
        (digitsVal fracAndRest.1 : ℤ))
    let expVal : ℤ :=
      (match fracAndRest.2 with
        | 'e' :: r => jsParseExp r
        | 'E' :: r => jsParseExp r
        | _ => 0) - fracAndRest.1.length
    some (mantissa, expVal)

/-- The real value `m · 10^e` of a parsed float. -/
noncomputable def jsFloatVal (p : ℤ × ℤ) : ℝ :=
  (p.1 : ℝ) * (10 : ℝ) ^ p.2

/-- One classified interval line of a Scala file, as `parseScalaFile`
reads it: a token containing `.` (float cents), a token containing `/`
(a ratio, numerator and denominator read with `parseFloat`), or any other
token (integer cents, also read with `parseFloat`).  `none` components
model `NaN`. -/
inductive ScalaTok
  | centsTok (value : Option (ℤ × ℤ))
  | ratioTok (num den : Option (ℤ × ℤ))
  | intTok (value : Option (ℤ × ℤ))
deriving DecidableEq, Repr

instance {ε α : Type} [DecidableEq ε] [DecidableEq α] :
    DecidableEq (Except ε α) := fun a b =>
  match a, b with
  | .ok x, .ok y =>
    if h : x = y then isTrue (by rw [h])
    else isFalse (fun hh => h (Except.ok.inj hh))
  | .error e, .error f =>
    if h : e = f then isTrue (by rw [h])
    else isFalse (fun hh => h (Except.error.inj hh))
  | .ok _, .error _ => isFalse (fun hh => Except.noConfusion hh)
  | .error _, .ok _ => isFalse (fun hh => Except.noConfusion hh)

/-- The interval-line classification of `parseScalaFile` (the `.` test
comes first, then `/`). -/
def classifyScalaLine (cs : List Char) : ScalaTok :=
  if cs.contains '.' then .centsTok (jsParseFloat cs)
  else if cs.contains '/' then
    let parts := splitOnChar '/' cs
    .ratioTok (jsParseFloat (parts.getD 0 [])) (jsParseFloat (parts.getD 1 []))
  else .intTok (jsParseFloat cs)

/-- The line preprocessing of `parseScalaFile`: split on newlines, trim
each line, drop empty lines and `!` comments. -/
def scalaLines (scalaText : String) : List (List Char) :=
  ((splitOnChar '\n' scalaText.toList).map jsTrim).filter
    (fun l => !l.isEmpty && !(l.headD ' ' == '!'))

/-- `parseScalaFile` (`string.js`): the thrown `Error`s become
`Except.error`; success carries the description (first non-comment line),
the parsed note count, and the classified interval tokens — one per
interval line, at most `numNotes` of them. -/
def parseScalaFile (scalaText : String) :
    Except String (String × ℕ × List ScalaTok) :=
  let lines := scalaLines scalaText
  if lines.length < 2 then Except.error "Invalid Scala file: too few lines"
  else
    match jsParseInt (lines.getD 1 []) with
    | none => Except.error "Invalid number of notes"
    | some numNotes =>
      if numNotes < 1 then Except.error "Invalid number of notes"
      else
        Except.ok (String.mk (lines.getD 0 []), numNotes.toNat,
          ((lines.drop 2).take numNotes.toNat).map classifyScalaLine)

/-- The cents value of a classified token: `parseFloat` cents for `.` and
plain tokens, `1200·log2(num/den)` for ratio tokens (`none` models a
`NaN` entry). -/
noncomputable def scalaTokCents : ScalaTok → Option ℝ
  | .centsTok v => v.map jsFloatVal
  | .ratioTok p q =>
    match p, q with
    | some num, some den =>
      some (1200 * Real.logb 2 (jsFloatVal num / jsFloatVal den))
    | _, _ => none
  | .intTok v => v.map jsFloatVal

/-- The numeric interval list `parseScalaFile` builds: the implicit 0-cent
unison followed by one entry per classified interval line. -/
noncomputable def scalaIntervalList (toks : List ScalaTok) : List (Option ℝ) :=
  some 0 :: toks.map scalaTokCents

/-- Whether a trimmed line is the plain decimal numeral of a positive
integer — the spec's "note count line is a positive integer". -/
def isPositiveIntegerLiteral (cs : List Char) : Bool :=
  !cs.isEmpty && cs.all Char.isDigit && cs.any (fun c => !(c == '0'))

/-- `generateScaleNotes` (`CHANGELOG.md`): every degree of the scale over
octaves −1 … numOctaves relative to the root, sorted ascending. -/
def generateScaleNotes (scaleType : ScaleKey) (rootMidi : ℤ)
    (numOctaves : ℕ) : List ℤ :=
  let octaves := (List.range (numOctaves + 2)).map (fun k => (k : ℤ) - 1)
  let notes := octaves.flatMap (fun oct =>
    (scaleIntervals scaleType).map (fun iv => rootMidi + iv + oct * 12))
  notes.mergeSort (fun a b => a ≤ b)

/-- `findNearestScaleNote` (`CHANGELOG.md`): linear scan for the allowed
note minimizing the absolute distance to the (fractional) current MIDI
value, first minimum winning; rounds when the list is empty. -/
noncomputable def findNearestScaleNote (currentMidi : ℝ)
    (allowedNotes : List ℤ) : ℤ :=
  match allowedNotes with
  | [] => round currentMidi
  | n0 :: _ =>
    allowedNotes.foldl (fun (nearest note : ℤ) =>
      if |currentMidi - (note : ℝ)| < |currentMidi - (nearest : ℝ)| then note
      else nearest) n0

/-- `quantizeStringPitch` (`CHANGELOG.md`): snap a placed draw-mode string
to the nearest allowed pitch (nearest semitone without a scale filter) by
rescaling its endpoints about their midpoint; returns the success flag
and the updated state.  Its pixel→mm conversion averages the X and Y
display scales, unlike `calculateDrawLength`. -/
noncomputable def quantizeStringPitch (s : HarpState)
    (scaleFilter : Option ScaleKey) (rootNote : ℤ) : Bool × HarpState :=
  if !s.drawMode || s.startX.isNone || s.endX.isNone then (false, s)
  else if s.actualFrequency ≤ 0 then (false, s)
  else
    let currentMidi := frequencyToMidi s.actualFrequency
    let targetMidi : ℤ :=
      match scaleFilter with
      | none => round currentMidi
      | some k => findNearestScaleNote currentMidi
          (generateScaleNotes k rootNote 6)
    let targetFreq := midiToFrequency (targetMidi : ℝ)
    let waveSpeed := calculateWaveSpeed s.material s.gauge s.tension
    let requiredLengthMm := waveSpeed / (2 * targetFreq) * 1000
    let dx := s.endX.getD 0 - s.startX.getD 0
    let dy := s.endY.getD 0 - s.startY.getD 0
    let currentLengthPixels := Real.sqrt (dx * dx + dy * dy)
    let scaleX := WALL_WIDTH / CANVAS_WIDTH
    let scaleY := FULL_STRING_LENGTH / CANVAS_HEIGHT
    let avgScale := (scaleX + scaleY) / 2
    let currentLengthMm := currentLengthPixels * avgScale
    let scaleFactor := requiredLengthMm / currentLengthMm
    let centerX := (s.startX.getD 0 + s.endX.getD 0) / 2
    let centerY := (s.startY.getD 0 + s.endY.getD 0) / 2
    let halfDx := dx / 2
    let halfDy := dy / 2
    let s2 := { s with
      startX := some (centerX - halfDx * scaleFactor)
      startY := some (centerY - halfDy * scaleFactor)
      endX := some (centerX + halfDx * scaleFactor)
      endY := some (centerY + halfDy * scaleFactor) }
    (true, s2.updateCalculations)

/-- The `scaleFactor` computed inside `quantizeStringPitch` for given
material data, target MIDI note and endpoints: required length over
current length, the latter taken with the averaged X/Y display scale. -/
noncomputable def quantizeScaleFactorXY (material : MaterialKey)
    (gauge : GaugeKey) (tension : ℝ) (targetMidi : ℤ)
    (x0 y0 x1 y1 : ℝ) : ℝ :=
  (calculateWaveSpeed material gauge tension /
      (2 * midiToFrequency (targetMidi : ℝ)) * 1000) /
    (Real.sqrt ((x1 - x0) * (x1 - x0) + (y1 - y0) * (y1 - y0)) *
      ((WALL_WIDTH / CANVAS_WIDTH + FULL_STRING_LENGTH / CANVAS_HEIGHT) / 2))

/-- The concrete draw-mode placement for the C4 analysis: a vertical
200-pixel segment from (500, 100) to (500, 300) on a factory
steel/medium/120 N string. -/
noncomputable def c4Base : HarpState :=
  { harpStringNew 0 1 36 .steel .medium 120 with
    drawMode := true
    startX := some 500
    startY := some 100
    endX := some 500
    endY := some 300 }

/-- The C4 pre-state: the placement with all derived fields recomputed, so
`actualFrequency`/`actualMidiNote` are consistent with the endpoints. -/
noncomputable def c4Pre : HarpState := c4Base.updateCalculations

/-- The C4 post-state: `quantizeStringPitch` with no scale filter. -/
noncomputable def c4Post : HarpState := (quantizeStringPitch c4Pre none 48).2

end WallHarp

namespace WallHarp

theorem midiToNoteName_intCast (n : ℤ) :
    midiToNoteName (n : ℝ) =
      (if 0 ≤ Int.tmod n 12 then noteNames.getD (Int.tmod n 12).toNat "undefined"
        else "undefined") ++ toString (Int.fdiv n 12 - 1) := by
  simp [midiToNoteName, round_intCast]

theorem specNoteName_intCast (n : ℤ) :
    specNoteName (n : ℝ) =
      noteNames.getD (n % 12).toNat "undefined" ++
        toString (Int.fdiv n 12 - 1) := by
  simp [specNoteName, round_intCast]

/-- MIDI/frequency round-trip is exact in real arithmetic. -/
theorem frequencyToMidi_midiToFrequency (m : ℝ) :
    frequencyToMidi (midiToFrequency m) = m := by
  unfold frequencyToMidi midiToFrequency
  rw [show (440 : ℝ) * 2 ^ ((m - 69) / 12) / 440 = 2 ^ ((m - 69) / 12) by ring,
    Real.logb_rpow (by norm_num) (by norm_num)]
  ring

/-- C9: for every real `m`, `frequencyToMidi (midiToFrequency m)` equals `m`
to within an absolute tolerance of `1e-2` (in fact exactly). -/
theorem midi_frequency_round_trip (m : ℝ) :
    |frequencyToMidi (midiToFrequency m) - m| ≤ 1 / 100 := by
  rw [frequencyToMidi_midiToFrequency, sub_self, abs_zero]
  norm_num

/-- C2 (code bug): with the registered constants (steel density 7850,
medium gauge 0.50 mm, 120 N) the code computes
`calculateFrequencyFromLength 1000 ≈ 139.5 Hz`, strictly between 139 and
140 Hz, hence NOT within 0.5 Hz of the documented 114.8 Hz reference that
the repository's own `runPhysicsTests` asserts. -/
theorem reference_calibration_fails :
    139 < calculateFrequencyFromLength 1000 .steel .medium 120 ∧
      calculateFrequencyFromLength 1000 .steel .medium 120 < 140 ∧
      ¬ |calculateFrequencyFromLength 1000 .steel .medium 120 - 114.8| < 0.5 := by
  have hpi1 := Real.pi_gt_d2
  have hpi2 := Real.pi_lt_d2
  have hk : (0 : ℝ) < Real.pi * ((0.50 / 2) / 1000) * ((0.50 / 2) / 1000) * 7850 := by
    positivity
  have hlo : (278 : ℝ) <
      Real.sqrt (120 / (Real.pi * ((0.50 / 2) / 1000) * ((0.50 / 2) / 1000) * 7850)) := by
    rw [Real.lt_sqrt (by norm_num)]
    rw [lt_div_iff₀ hk]
    nlinarith
  have hhi :
      Real.sqrt (120 / (Real.pi * ((0.50 / 2) / 1000) * ((0.50 / 2) / 1000) * 7850)) <
        280 := by
    rw [Real.sqrt_lt' (by norm_num)]
    rw [div_lt_iff₀ hk]
    nlinarith
  simp only [calculateFrequencyFromLength, calculateWaveSpeed, materialDensity,
    gaugeDiameter]
  rw [show (2 : ℝ) * (1000 / 1000) = 2 by norm_num]
  refine ⟨by linarith, by linarith, fun habs => ?_⟩
  have h2 := (abs_lt.mp habs).2
  linarith

theorem le_clamp (v lo hi : ℝ) : lo ≤ clamp v lo hi :=
  le_max_left _ _

theorem clamp_le (v lo hi : ℝ) (h : lo ≤ hi) : clamp v lo hi ≤ hi :=
  max_le h (min_le_left _ _)

theorem updateCalculations_lowerCapoMm (s : HarpState) :
    s.updateCalculations.lowerCapoMm = s.lowerCapoMm := rfl

theorem updateCalculations_upperCapoMm (s : HarpState) :
    s.updateCalculations.upperCapoMm = s.upperCapoMm := rfl

theorem initializeCapoPositions_capoInvariant (s : HarpState) :
    capoInvariant s.initializeCapoPositions := by
  have hmin : MIN_PLAYABLE_LENGTH ≤
      clamp s.targetLengthMm MIN_PLAYABLE_LENGTH MAX_PLAYABLE_LENGTH :=
    le_clamp _ _ _
  have hmax : clamp s.targetLengthMm MIN_PLAYABLE_LENGTH MAX_PLAYABLE_LENGTH ≤
      MAX_PLAYABLE_LENGTH :=
    clamp_le _ _ _ (by norm_num [MIN_PLAYABLE_LENGTH, MAX_PLAYABLE_LENGTH])
  set L := clamp s.targetLengthMm MIN_PLAYABLE_LENGTH MAX_PLAYABLE_LENGTH
    with hLdef
  simp only [MIN_PLAYABLE_LENGTH, MAX_PLAYABLE_LENGTH] at hmin hmax
  have h1 : ¬ (FULL_STRING_LENGTH / 2 - L / 2 < MIN_CAPO_DISTANCE) := by
    simp only [FULL_STRING_LENGTH, MIN_CAPO_DISTANCE, not_lt]
    linarith
  have h2 : ¬ (FULL_STRING_LENGTH / 2 + L / 2 >
      FULL_STRING_LENGTH - MIN_CAPO_DISTANCE) := by
    simp only [FULL_STRING_LENGTH, MIN_CAPO_DISTANCE, gt_iff_lt, not_lt]
    linarith
  unfold HarpState.initializeCapoPositions capoInvariant
  simp only [updateCalculations_lowerCapoMm, updateCalculations_upperCapoMm,
    ← hLdef]
  rw [if_neg h1, if_neg h2]
  simp only [FULL_STRING_LENGTH, MIN_CAPO_DISTANCE, MIN_PLAYABLE_LENGTH]
  refine ⟨by linarith, by linarith, by linarith, by linarith⟩

theorem setLowerCapoPosition_capoInvariant (s : HarpState)
    (h : capoInvariant s) (p : ℝ) :
    capoInvariant (s.setLowerCapoPosition p) := by
  obtain ⟨h1, h2, h3, h4⟩ := h
  have hlo : MIN_CAPO_DISTANCE ≤
      clamp p MIN_CAPO_DISTANCE (s.upperCapoMm - MIN_PLAYABLE_LENGTH) :=
    le_clamp _ _ _
  have hhi : clamp p MIN_CAPO_DISTANCE (s.upperCapoMm - MIN_PLAYABLE_LENGTH) ≤
      s.upperCapoMm - MIN_PLAYABLE_LENGTH := by
    refine clamp_le _ _ _ ?_
    simp only [MIN_CAPO_DISTANCE, MIN_PLAYABLE_LENGTH] at *
    linarith
  unfold HarpState.setLowerCapoPosition capoInvariant
  simp only [updateCalculations_lowerCapoMm, updateCalculations_upperCapoMm]
  simp only [MIN_CAPO_DISTANCE, MIN_PLAYABLE_LENGTH] at *
  refine ⟨hlo, by linarith, h3, by linarith⟩

theorem setUpperCapoPosition_capoInvariant (s : HarpState)
    (h : capoInvariant s) (p : ℝ) :
    capoInvariant (s.setUpperCapoPosition p) := by
  obtain ⟨h1, h2, h3, h4⟩ := h
  have hlo : s.lowerCapoMm + MIN_PLAYABLE_LENGTH ≤
      clamp p (s.lowerCapoMm + MIN_PLAYABLE_LENGTH)
        (FULL_STRING_LENGTH - MIN_CAPO_DISTANCE) :=
    le_clamp _ _ _
  have hhi : clamp p (s.lowerCapoMm + MIN_PLAYABLE_LENGTH)
      (FULL_STRING_LENGTH - MIN_CAPO_DISTANCE) ≤
        FULL_STRING_LENGTH - MIN_CAPO_DISTANCE := by
    refine clamp_le _ _ _ ?_
    simp only [MIN_CAPO_DISTANCE, MIN_PLAYABLE_LENGTH, FULL_STRING_LENGTH] at *
    linarith
  unfold HarpState.setUpperCapoPosition capoInvariant
  simp only [updateCalculations_lowerCapoMm, updateCalculations_upperCapoMm]
  simp only [MIN_CAPO_DISTANCE, MIN_PLAYABLE_LENGTH, FULL_STRING_LENGTH] at *
  refine ⟨h1, by linarith, hhi, by linarith⟩

theorem setMaterial_capoInvariant (s : HarpState) (m : MaterialKey)
    (g : GaugeKey) (t : ℝ) : capoInvariant (s.setMaterial m g t) := by
  unfold HarpState.setMaterial
  exact initializeCapoPositions_capoInvariant _

theorem applyOp_capoInvariant (s : HarpState) (op : StringOp)
    (h : capoInvariant s) : capoInvariant (applyOp s op) := by
  cases op with
  | setLower p => exact setLowerCapoPosition_capoInvariant s h p
  | setUpper p => exact setUpperCapoPosition_capoInvariant s h p
  | setMat m g t => exact setMaterial_capoInvariant s m g t

theorem applyOps_capoInvariant (s : HarpState) (ops : List StringOp)
    (h : capoInvariant s) : capoInvariant (applyOps s ops) := by
  induction ops generalizing s with
  | nil => exact h
  | cons op ops ih => exact ih _ (applyOp_capoInvariant s op h)

/-- C1: every state reachable from a factory-created string by any finite
sequence of `setLowerCapoPosition`, `setUpperCapoPosition` and
`setMaterial` calls (registered material/gauge, positive tension)
satisfies `MIN_CAPO_DISTANCE ≤ lowerCapoMm < upperCapoMm ≤
FULL_STRING_LENGTH − MIN_CAPO_DISTANCE` and
`upperCapoMm − lowerCapoMm ≥ MIN_PLAYABLE_LENGTH`. -/
theorem capo_invariant_reachable (index totalStrings : ℕ)
    (targetMidiNote : ℝ) (material : MaterialKey) (gauge : GaugeKey)
    (tension : ℝ) (htension : 0 < tension) (ops : List StringOp)
    (hops : ∀ op ∈ ops, op.valid) :
    capoInvariant
      (applyOps
        (harpStringNew index totalStrings targetMidiNote material gauge tension)
        ops) := by
  refine applyOps_capoInvariant _ ops ?_
  unfold harpStringNew
  exact initializeCapoPositions_capoInvariant _

/-- C1 witness: the invariant after a concrete three-step call sequence on
string 0 of a 36-string steel/medium/120 N harp. -/
theorem capo_invariant_reachable_witness :
    capoInvariant
      (applyOps (harpStringNew 0 36 36 .steel .medium 120)
        [StringOp.setLower 300, StringOp.setMat .nylon .light 60,
          StringOp.setUpper 900]) := by
  refine capo_invariant_reachable 0 36 36 .steel .medium 120 (by norm_num)
    _ ?_
  intro op hop
  simp only [List.mem_cons, List.not_mem_nil, or_false] at hop
  rcases hop with rfl | rfl | rfl
  · exact trivial
  · exact (by norm_num : (0:ℝ) < 60)
  · exact trivial

theorem handleMousePressedSelection_ne_nil (sel : List ℕ) (i : ℕ) (m : Bool) :
    handleMousePressedSelection sel i m ≠ [] := by
  unfold handleMousePressedSelection
  dsimp only
  split_ifs with h1 h2 h3
  · simp
  · exact h3
  · simp
  · simp

theorem applyPresses_ne_nil (presses : List (ℕ × Bool)) (sel : List ℕ)
    (h : sel ≠ []) : applyPresses sel presses ≠ [] := by
  induction presses generalizing sel with
  | nil => exact h
  | cons p ps ih => exact ih _ (handleMousePressedSelection_ne_nil sel p.1 p.2)

/-- C8: from a single-selection state, any finite sequence of mouse-press
selection operations on valid string indices leaves at least one index
selected; in particular a multi-select toggle on the last remaining
selected index is rejected and that index stays selected. -/
theorem selection_nonempty (i0 numStrings : ℕ) (presses : List (ℕ × Bool))
    (hvalid : ∀ p ∈ presses, p.1 < numStrings) :
    1 ≤ (applyPresses [i0] presses).length ∧
      ∀ i : ℕ, handleMousePressedSelection [i] i true = [i] := by
  constructor
  · have h := applyPresses_ne_nil presses [i0] (by simp)
    exact List.length_pos.mpr h
  · intro i
    simp [handleMousePressedSelection]

/-- C8 witness: one multi-select toggle on the only selected string of a
one-string collection. -/
theorem selection_nonempty_witness :
    1 ≤ (applyPresses [0] [(0, true)]).length ∧
      ∀ i : ℕ, handleMousePressedSelection [i] i true = [i] :=
  selection_nonempty 0 1 [(0, true)] (by simp)

theorem octaveLoop_lt (maxMidi t : ℤ) : octaveLoop maxMidi t < maxMidi := by
  generalize hn : (t - maxMidi + OCTAVE_RANGE * 12).toNat = n
  induction n using Nat.strong_induction_on generalizing t with
  | _ n ih =>
    rw [octaveLoop]
    split_ifs with h
    · refine ih (t - OCTAVE_RANGE * 12 - maxMidi + OCTAVE_RANGE * 12).toNat
        ?_ _ rfl
      simp only [OCTAVE_RANGE] at *
      omega
    · omega

theorem octaveLoop_le (maxMidi t : ℤ)
    (hge : maxMidi - OCTAVE_RANGE * 12 ≤ t) :
    maxMidi - OCTAVE_RANGE * 12 ≤ octaveLoop maxMidi t := by
  generalize hn : (t - maxMidi + OCTAVE_RANGE * 12).toNat = n
  induction n using Nat.strong_induction_on generalizing t with
  | _ n ih =>
    rw [octaveLoop]
    split_ifs with h
    · refine ih (t - OCTAVE_RANGE * 12 - maxMidi + OCTAVE_RANGE * 12).toNat
        ?_ _ ?_ rfl
      · simp only [OCTAVE_RANGE] at *
        omega
      · simp only [OCTAVE_RANGE] at *
        omega
    · exact hge

theorem scaleIntervals_nonneg (k : ScaleKey) :
    ∀ x ∈ scaleIntervals k, 0 ≤ x := by
  cases k <;> decide

theorem scaleIntervals_getD_nonneg (k : ScaleKey) (n : ℕ) :
    0 ≤ (scaleIntervals k).getD n 0 := by
  rcases lt_or_ge n (scaleIntervals k).length with hn | hn
  · rw [List.getD_eq_getElem _ _ hn]
    exact scaleIntervals_nonneg k _ (List.getElem_mem hn)
  · rw [List.getD_eq_default _ _ hn]

theorem applyScaleTargetMidi_bounds (scale : ScaleKey) (rootMidi : ℤ)
    (i : ℕ) :
    rootMidi ≤ applyScaleTargetMidi scale rootMidi i ∧
      applyScaleTargetMidi scale rootMidi i < rootMidi + OCTAVE_RANGE * 12 := by
  simp only [applyScaleTargetMidi]
  refine ⟨?_, octaveLoop_lt _ _⟩
  have h0 : 0 ≤ (scaleIntervals scale).getD
      (i % (scaleIntervals scale).length) 0 :=
    scaleIntervals_getD_nonneg _ _
  have hoct : (0 : ℤ) ≤ ((i / (scaleIntervals scale).length : ℕ) : ℤ) * 12 := by
    positivity
  have h := octaveLoop_le (rootMidi + OCTAVE_RANGE * 12)
    (rootMidi + (scaleIntervals scale).getD
      (i % (scaleIntervals scale).length) 0 +
      ((i / (scaleIntervals scale).length : ℕ) : ℤ) * 12)
    (by simp only [OCTAVE_RANGE]; linarith)
  simp only [OCTAVE_RANGE] at h ⊢
  linarith

theorem initializeCapoPositions_targetMidiNote (s : HarpState) :
    s.initializeCapoPositions.targetMidiNote = s.targetMidiNote := rfl

/-- C3: `applyScale` assigns the string at position `i` the target
`octaveLoop (rootMidi + 12·OCTAVE_RANGE) (rootMidi + intervals[i mod len] +
12·(i div len))`, and that value always lies in
`[rootMidi, rootMidi + 12·OCTAVE_RANGE)`. -/
theorem applyScale_octave_bounds (strings : List HarpState)
    (scale : ScaleKey) (rootMidi : ℤ) (i : ℕ)
    (h : i < (applyScale strings scale rootMidi).length) :
    ((applyScale strings scale rootMidi).get ⟨i, h⟩).targetMidiNote =
        ((applyScaleTargetMidi scale rootMidi i : ℤ) : ℝ) ∧
      ((rootMidi : ℝ) ≤
          ((applyScale strings scale rootMidi).get ⟨i, h⟩).targetMidiNote ∧
        ((applyScale strings scale rootMidi).get ⟨i, h⟩).targetMidiNote <
          (rootMidi : ℝ) + 12 * (OCTAVE_RANGE : ℤ)) := by
  have hlen : i < strings.length := by
    simpa [applyScale, List.length_mapIdx] using h
  have hget : ((applyScale strings scale rootMidi).get ⟨i, h⟩).targetMidiNote =
      ((applyScaleTargetMidi scale rootMidi i : ℤ) : ℝ) := by
    simp only [applyScale, List.get_eq_getElem, List.getElem_mapIdx]
    rw [initializeCapoPositions_targetMidiNote]
  have hbounds := applyScaleTargetMidi_bounds scale rootMidi i
  refine ⟨hget, ?_, ?_⟩
  · rw [hget]
    exact_mod_cast hbounds.1
  · rw [hget]
    exact_mod_cast (by linarith [hbounds.2] :
      applyScaleTargetMidi scale rootMidi i < rootMidi + 12 * OCTAVE_RANGE)

/-- C3 witness: the bound at string 0 of a one-string collection with the
chromatic scale rooted at MIDI 36. -/
theorem applyScale_octave_bounds_witness :
    ((applyScale [harpStringNew 0 1 36 .steel .medium 120] .chromatic 36).get
        ⟨0, by simp [applyScale, List.length_mapIdx]⟩).targetMidiNote =
        ((applyScaleTargetMidi .chromatic 36 0 : ℤ) : ℝ) ∧
      (((36 : ℤ) : ℝ) ≤
          ((applyScale [harpStringNew 0 1 36 .steel .medium 120] .chromatic
              36).get ⟨0, by simp [applyScale, List.length_mapIdx]⟩).targetMidiNote ∧
        ((applyScale [harpStringNew 0 1 36 .steel .medium 120] .chromatic
              36).get ⟨0, by simp [applyScale, List.length_mapIdx]⟩).targetMidiNote <
          ((36 : ℤ) : ℝ) + 12 * (OCTAVE_RANGE : ℤ)) :=
  applyScale_octave_bounds [harpStringNew 0 1 36 .steel .medium 120]
    .chromatic 36 0 (by simp [applyScale, List.length_mapIdx])

theorem setMaterial_drawMode (s : HarpState) (m : MaterialKey) (g : GaugeKey)
    (t : ℝ) : (s.setMaterial m g t).drawMode = s.drawMode := rfl

theorem setStringData_drawMode (s : HarpState) (d : StringData) :
    (s.setStringData d).drawMode = s.drawMode := by
  unfold HarpState.setStringData
  dsimp only
  cases d.lowerCapoMm <;> cases d.upperCapoMm <;> cases d.targetMidiNote <;>
    cases d.material <;> cases d.gauge <;> cases d.tension <;> rfl

theorem setStringData_capos (s : HarpState) (data : StringData) (l u : ℝ)
    (hl : data.lowerCapoMm = some l) (hu : data.upperCapoMm = some u)
    (hmat : data.material = none ∨ data.gauge = none ∨
      data.tension = none) :
    (s.setStringData data).lowerCapoMm = l ∧
      (s.setStringData data).upperCapoMm = u := by
  unfold HarpState.setStringData
  dsimp only
  rw [hl, hu]
  cases data.targetMidiNote <;> cases hm : data.material <;>
    cases hg : data.gauge <;> cases ht : data.tension <;>
    simp_all [updateCalculations_lowerCapoMm, updateCalculations_upperCapoMm]

/-- C10 (corrected): for data whose capo fields are present and which does
NOT carry the full material/gauge/tension triple, `setStringData` writes
`lowerCapoMm` and `upperCapoMm` verbatim with no clamping, bounds or
ordering check; in particular the data with lowerCapoMm 300 and
upperCapoMm 100 leaves the state violating `lowerCapoMm < upperCapoMm`. -/
theorem setStringData_writes_capos_verbatim (s : HarpState)
    (data : StringData) (l u : ℝ) (hl : data.lowerCapoMm = some l)
    (hu : data.upperCapoMm = some u)
    (hmat : data.material = none ∨ data.gauge = none ∨
      data.tension = none) :
    (s.setStringData data).lowerCapoMm = l ∧
      (s.setStringData data).upperCapoMm = u ∧
      ¬ ((s.setStringData
            { lowerCapoMm := some 300, upperCapoMm := some 100 }).lowerCapoMm <
          (s.setStringData
            { lowerCapoMm := some 300, upperCapoMm := some 100 }).upperCapoMm) := by
  obtain ⟨h1, h2⟩ := setStringData_capos s data l u hl hu hmat
  obtain ⟨h3, h4⟩ := setStringData_capos s
    { lowerCapoMm := some 300, upperCapoMm := some 100 } 300 100 rfl rfl
    (Or.inl rfl)
  refine ⟨h1, h2, ?_⟩
  rw [h3, h4]
  norm_num

/-- C10 witness: verbatim capo write on a factory string with a
capo-only data record. -/
theorem setStringData_writes_capos_verbatim_witness :
    ((harpStringNew 0 1 36 .steel .medium 120).setStringData
        { lowerCapoMm := some 250, upperCapoMm := some 800 }).lowerCapoMm =
        250 ∧
      ((harpStringNew 0 1 36 .steel .medium 120).setStringData
          { lowerCapoMm := some 250, upperCapoMm := some 800 }).upperCapoMm =
        800 ∧
      ¬ (((harpStringNew 0 1 36 .steel .medium 120).setStringData
            { lowerCapoMm := some 300, upperCapoMm := some 100 }).lowerCapoMm <
          ((harpStringNew 0 1 36 .steel .medium 120).setStringData
            { lowerCapoMm := some 300, upperCapoMm := some 100 }).upperCapoMm) :=
  setStringData_writes_capos_verbatim (harpStringNew 0 1 36 .steel .medium 120)
    { lowerCapoMm := some 250, upperCapoMm := some 800 } 250 800 rfl rfl
    (Or.inl rfl)

/-- C10 counterexample: when the data also carries the full
material/gauge/tension triple, `setStringData` re-initializes the capos
through `setMaterial`, so `lowerCapoMm` is NOT the parsed field value 0
(it ends at least `MIN_CAPO_DISTANCE`). -/
theorem setStringData_verbatim_counterexample :
    ((harpStringNew 0 1 36 .steel .medium 120).setStringData
        { lowerCapoMm := some 0, upperCapoMm := some 200,
          material := some .steel, gauge := some .medium,
          tension := some 120 }).lowerCapoMm ≠ 0 := by
  have he : ((harpStringNew 0 1 36 .steel .medium 120).setStringData
      { lowerCapoMm := some 0, upperCapoMm := some 200,
        material := some .steel, gauge := some .medium,
        tension := some 120 }).lowerCapoMm =
      (({ harpStringNew 0 1 36 .steel .medium 120 with
          lowerCapoMm := (0 : ℝ), upperCapoMm := (200 : ℝ) }).setMaterial
        .steel .medium 120).lowerCapoMm := rfl
  have hinv := setMaterial_capoInvariant
    { harpStringNew 0 1 36 .steel .medium 120 with
      lowerCapoMm := (0 : ℝ), upperCapoMm := (200 : ℝ) } .steel .medium 120
  rw [he]
  intro h0
  have h1 := hinv.1
  rw [h0] at h1
  simp only [MIN_CAPO_DISTANCE] at h1
  linarith

theorem importStringData_drawMode_none (s : HarpState) (d : StringData)
    (hd : d.drawMode = none) : importStringData s d = s.setStringData d := by
  unfold importStringData
  rw [hd]

theorem importStrings_drawMode (ss : List HarpState) (ds : List StringData)
    (hds : ∀ d ∈ ds, d.drawMode = none)
    (hss : ∀ s ∈ ss, s.drawMode = false) :
    ∀ s2 ∈ importStrings ss ds, s2.drawMode = false := by
  induction ss generalizing ds with
  | nil => cases ds <;> simp [importStrings]
  | cons s ss ih =>
    cases ds with
    | nil => simpa [importStrings] using hss
    | cons d ds =>
      intro s2 hs2
      simp only [importStrings, List.mem_cons] at hs2
      rcases hs2 with rfl | hs2
      · rw [importStringData_drawMode_none _ _ (hds d (by simp)),
          setStringData_drawMode]
        exact hss s (by simp)
      · exact ih ds (fun x hx => hds x (by simp [hx]))
          (fun x hx => hss x (by simp [hx])) s2 hs2

/-- C5: `importConfiguration` returns false and leaves the collection
untouched when `version` or `strings` is missing or when `numStrings`
differs from the collection length; a v1.0 configuration (records without
draw-mode fields) applied to a matching collection of linear-mode strings
succeeds and leaves every string in Linear (non-draw) mode. -/
theorem importConfiguration_contract (config : Config)
    (strings : List HarpState) :
    ((config.version = none ∨ config.strings = none) →
        importConfiguration config strings = (false, strings)) ∧
      (config.numStrings ≠ some strings.length →
        importConfiguration config strings = (false, strings)) ∧
      (∀ v ds, config.version = some v → config.strings = some ds →
        config.numStrings = some strings.length →
        (∀ d ∈ ds, d.drawMode = none) →
        (∀ s ∈ strings, s.drawMode = false) →
        (importConfiguration config strings).1 = true ∧
          ∀ s2 ∈ (importConfiguration config strings).2,
            s2.drawMode = false) := by
  refine ⟨?_, ?_, ?_⟩
  · intro h
    unfold importConfiguration
    have hcond : (config.version.isNone || config.strings.isNone) = true := by
      rcases h with h | h <;> simp [h]
    rw [if_pos hcond]
  · intro h
    unfold importConfiguration
    split_ifs with h1
    · rfl
    · rfl
  · intro v ds hv hs hn hds hss
    have he : importConfiguration config strings =
        (true, importStrings strings ds) := by
      unfold importConfiguration
      rw [hv, hs, hn]
      simp
    rw [he]
    exact ⟨rfl, importStrings_drawMode strings ds hds hss⟩

/-- A v1.0 per-string record: capo positions, target note, frequency and
note name only — no draw-mode or material fields. -/
noncomputable def v1String : StringData :=
  { index := some 0
    lowerCapoMm := some 900
    upperCapoMm := some 1400
    targetMidiNote := some 40
    actualFrequency := some 110
    noteName := some "A2" }

/-- A v1.0 configuration for a one-string collection. -/
noncomputable def v1Config : Config :=
  { version := some "1.0", numStrings := some 1, strings := some [v1String] }

/-- C5 witness: importing the v1.0 configuration onto a matching
one-string collection succeeds and keeps the string in Linear mode. -/
theorem importConfiguration_contract_witness :
    (importConfiguration v1Config
        [harpStringNew 0 1 36 .steel .medium 120]).1 = true ∧
      ∀ s2 ∈ (importConfiguration v1Config
          [harpStringNew 0 1 36 .steel .medium 120]).2,
        s2.drawMode = false :=
  (importConfiguration_contract v1Config
      [harpStringNew 0 1 36 .steel .medium 120]).2.2
    "1.0" [v1String] rfl rfl rfl
    (by intro d hd; simp only [List.mem_singleton] at hd; subst hd; rfl)
    (by intro s hs; simp only [List.mem_singleton] at hs; subst hs; rfl)

/-- C6 (corrected): `parseScalaFile` fails exactly when there are fewer
than two non-comment lines or JavaScript `parseInt` of the note-count
line yields no digits or a value below 1; on success the description is
the first non-comment line and the tokens are the classified interval
lines (at most `numNotes` of them), one entry each, after the implicit
unison. -/
theorem parseScalaFile_contract (text : String) :
    ((parseScalaFile text).isOk = false ↔
        (scalaLines text).length < 2 ∨
          jsParseInt ((scalaLines text).getD 1 []) = none ∨
          ∃ n : ℤ, jsParseInt ((scalaLines text).getD 1 []) = some n ∧
            n < 1) ∧
      (∀ desc numNotes toks,
        parseScalaFile text = .ok (desc, numNotes, toks) →
        desc = String.mk ((scalaLines text).getD 0 []) ∧
          jsParseInt ((scalaLines text).getD 1 []) = some (numNotes : ℤ) ∧
          toks = (((scalaLines text).drop 2).take numNotes).map
            classifyScalaLine ∧
          scalaIntervalList toks = some 0 :: toks.map scalaTokCents) := by
  constructor
  · unfold parseScalaFile
    dsimp only
    split_ifs with h1
    · simp [Except.isOk, Except.toBool, h1]
    · cases hp : jsParseInt ((scalaLines text).getD 1 []) with
      | none => simp [Except.isOk, Except.toBool, h1]
      | some n =>
        dsimp only
        split_ifs with h2
        · simp [Except.isOk, Except.toBool, h1, h2]
        · simp [Except.isOk, Except.toBool, h1, h2]
  · intro desc numNotes toks hok
    unfold parseScalaFile at hok
    dsimp only at hok
    split_ifs at hok with h1
    cases hp : jsParseInt ((scalaLines text).getD 1 []) with
    | none =>
      rw [hp] at hok
      exact absurd hok (by simp)
    | some n =>
      rw [hp] at hok
      dsimp only at hok
      split_ifs at hok with h2
      simp only [Except.ok.injEq, Prod.mk.injEq] at hok
      obtain ⟨hdesc, hnum, htoks⟩ := hok
      subst hnum
      refine ⟨hdesc.symm, ?_, htoks.symm, rfl⟩
      congr 1
      omega

/-- C6 witness: the success shape at the concrete file
`desc / 2 / 100.0 / 9-to-8`. -/
theorem parseScalaFile_contract_witness :
    "desc" = String.mk ((scalaLines "desc\n2\n100.0\n9/8").getD 0 []) ∧
      jsParseInt ((scalaLines "desc\n2\n100.0\n9/8").getD 1 []) =
        some ((2 : ℕ) : ℤ) ∧
      [ScalaTok.centsTok (some (1000, -1)),
        ScalaTok.ratioTok (some (9, 0)) (some (8, 0))] =
        (((scalaLines "desc\n2\n100.0\n9/8").drop 2).take 2).map
          classifyScalaLine ∧
      scalaIntervalList
          [ScalaTok.centsTok (some (1000, -1)),
            ScalaTok.ratioTok (some (9, 0)) (some (8, 0))] =
        some 0 ::
          [ScalaTok.centsTok (some (1000, -1)),
            ScalaTok.ratioTok (some (9, 0)) (some (8, 0))].map scalaTokCents :=
  (parseScalaFile_contract "desc\n2\n100.0\n9/8").2 "desc" 2
    [ScalaTok.centsTok (some (1000, -1)),
      ScalaTok.ratioTok (some (9, 0)) (some (8, 0))] (by decide)

/-- C6 counterexample: the note-count line `2.9` is not a positive
integer, yet `parseScalaFile` succeeds (JavaScript `parseInt` reads the
leading `2`), refuting the claimed "fails exactly when" condition. -/
theorem parseScalaFile_float_count_counterexample :
    (parseScalaFile "desc\n2.9\n100.0\n200.0").isOk = true ∧
      2 ≤ (scalaLines "desc\n2.9\n100.0\n200.0").length ∧
      isPositiveIntegerLiteral
        ((scalaLines "desc\n2.9\n100.0\n200.0").getD 1 []) = false := by
  refine ⟨by decide, by decide, by decide⟩

theorem updateCalculations_startX (s : HarpState) :
    s.updateCalculations.startX = s.startX := rfl

theorem updateCalculations_startY (s : HarpState) :
    s.updateCalculations.startY = s.startY := rfl

theorem updateCalculations_endX (s : HarpState) :
    s.updateCalculations.endX = s.endX := rfl

theorem updateCalculations_endY (s : HarpState) :
    s.updateCalculations.endY = s.endY := rfl

theorem updateCalculations_actualFrequency (s : HarpState) :
    s.updateCalculations.actualFrequency =
      calculateWaveSpeed s.material s.gauge s.tension /
        (2 * (s.updateCalculations.playableLengthMm / 1000)) := rfl

theorem updateCalculations_actualMidiNote (s : HarpState) :
    s.updateCalculations.actualMidiNote =
      frequencyToMidi s.updateCalculations.actualFrequency := rfl

theorem updateCalculations_playableLengthMm_draw (s : HarpState)
    (x0 y0 x1 y1 : ℝ) (hdm : s.drawMode = true) (hsx : s.startX = some x0)
    (hsy : s.startY = some y0) (hex : s.endX = some x1)
    (hey : s.endY = some y1) :
    s.updateCalculations.playableLengthMm =
      max (Real.sqrt ((x1 - x0) * (x1 - x0) + (y1 - y0) * (y1 - y0)) *
        (FULL_STRING_LENGTH / CANVAS_HEIGHT)) MIN_PLAYABLE_LENGTH := by
  unfold HarpState.updateCalculations HarpState.calculateDrawLength
  rw [hdm, hsx, hsy, hex, hey]
  simp

theorem waveSpeed_steel_medium_bounds :
    100 < calculateWaveSpeed .steel .medium 120 ∧
      calculateWaveSpeed .steel .medium 120 < 536 := by
  have hpi1 := Real.pi_gt_d2
  have hpi2 := Real.pi_lt_d2
  have hk : (0 : ℝ) <
      Real.pi * ((0.50 / 2) / 1000) * ((0.50 / 2) / 1000) * 7850 := by
    positivity
  constructor
  · show (100 : ℝ) < Real.sqrt
      (120 / (Real.pi * ((0.50 / 2) / 1000) * ((0.50 / 2) / 1000) * 7850))
    rw [Real.lt_sqrt (by norm_num), lt_div_iff₀ hk]
    nlinarith
  · show Real.sqrt
      (120 / (Real.pi * ((0.50 / 2) / 1000) * ((0.50 / 2) / 1000) * 7850)) < 536
    rw [Real.sqrt_lt' (by norm_num), div_lt_iff₀ hk]
    nlinarith

theorem quantizeStringPitch_none_eq (s : HarpState) (root : ℤ)
    (x0 y0 x1 y1 : ℝ) (hdm : s.drawMode = true) (hsx : s.startX = some x0)
    (hsy : s.startY = some y0) (hex : s.endX = some x1)
    (hey : s.endY = some y1) (hf : 0 < s.actualFrequency) :
    quantizeStringPitch s none root =
      (true, HarpState.updateCalculations { s with
        startX := some ((x0 + x1) / 2 - ((x1 - x0) / 2) *
          quantizeScaleFactorXY s.material s.gauge s.tension
            (round (frequencyToMidi s.actualFrequency)) x0 y0 x1 y1)
        startY := some ((y0 + y1) / 2 - ((y1 - y0) / 2) *
          quantizeScaleFactorXY s.material s.gauge s.tension
            (round (frequencyToMidi s.actualFrequency)) x0 y0 x1 y1)
        endX := some ((x0 + x1) / 2 + ((x1 - x0) / 2) *
          quantizeScaleFactorXY s.material s.gauge s.tension
            (round (frequencyToMidi s.actualFrequency)) x0 y0 x1 y1)
        endY := some ((y0 + y1) / 2 + ((y1 - y0) / 2) *
          quantizeScaleFactorXY s.material s.gauge s.tension
            (round (frequencyToMidi s.actualFrequency)) x0 y0 x1 y1) }) := by
  unfold quantizeStringPitch quantizeScaleFactorXY
  rw [hdm, hsx, hsy, hex, hey]
  rw [if_neg (by simp)]
  rw [if_neg (not_le.mpr hf)]
  simp [Option.getD]

/-- C4 (code bug): at the concrete placed vertical draw string (steel,
medium, 120 N, endpoints (500,100)–(500,300)), `quantizeStringPitch` with
no scale filter succeeds and preserves the endpoint midpoint, but the
resulting `actualMidiNote` exceeds the nearest integer semitone of the
previous `actualMidiNote` by exactly `12·log2(7615/4268)` (≈ 10
semitones): the rescaling converts pixels to mm with the averaged X/Y
display scale while `calculateDrawLength` uses the Y scale alone. -/
theorem quantizeStringPitch_misses_nearest_semitone :
    (quantizeStringPitch c4Pre none 48).1 = true ∧
      (c4Post.startX.getD 0 + c4Post.endX.getD 0) / 2 =
        (c4Pre.startX.getD 0 + c4Pre.endX.getD 0) / 2 ∧
      (c4Post.startY.getD 0 + c4Post.endY.getD 0) / 2 =
        (c4Pre.startY.getD 0 + c4Pre.endY.getD 0) / 2 ∧
      c4Post.actualMidiNote =
        ((round c4Pre.actualMidiNote : ℤ) : ℝ) +
          12 * Real.logb 2 (7615 / 4268) ∧
      c4Post.actualMidiNote ≠ ((round c4Pre.actualMidiNote : ℤ) : ℝ) := by
  obtain ⟨hv1, hv2⟩ := waveSpeed_steel_medium_bounds
  have hv0 : (0 : ℝ) < calculateWaveSpeed .steel .medium 120 := by linarith
  have hs200 : Real.sqrt (((500 : ℝ) - 500) * (500 - 500) +
      (300 - 100) * (300 - 100)) = 200 := by
    rw [show ((500 : ℝ) - 500) * (500 - 500) + (300 - 100) * (300 - 100) =
      200 ^ 2 by norm_num]
    exact Real.sqrt_sq (by norm_num)
  have hPreLen : c4Pre.playableLengthMm = 4268 / 7 := by
    have h1 := updateCalculations_playableLengthMm_draw c4Base 500 100 500 300
      rfl rfl rfl rfl rfl
    show c4Base.updateCalculations.playableLengthMm = 4268 / 7
    rw [h1, hs200]
    simp only [FULL_STRING_LENGTH, CANVAS_HEIGHT, MIN_PLAYABLE_LENGTH]
    rw [max_eq_left (by norm_num)]
    norm_num
  have hPreF : c4Pre.actualFrequency =
      calculateWaveSpeed .steel .medium 120 /
        (2 * (c4Pre.playableLengthMm / 1000)) := rfl
  have hPreFval : c4Pre.actualFrequency =
      calculateWaveSpeed .steel .medium 120 / (2 * ((4268 / 7) / 1000)) := by
    rw [hPreF, hPreLen]
  have hFpos : 0 < c4Pre.actualFrequency := by
    rw [hPreFval]
    exact div_pos hv0 (by norm_num)
  have hq := quantizeStringPitch_none_eq c4Pre 48 500 100 500 300
    rfl rfl rfl rfl rfl hFpos
  have hm1 : c4Pre.material = MaterialKey.steel := rfl
  have hm2 : c4Pre.gauge = GaugeKey.medium := rfl
  have hm3 : c4Pre.tension = (120 : ℝ) := rfl
  rw [hm1, hm2, hm3] at hq
  set t : ℤ := round (frequencyToMidi c4Pre.actualFrequency) with hts
  set SF : ℝ := quantizeScaleFactorXY .steel .medium 120 t 500 100 500 300
    with hSFs
  have hpost : c4Post = HarpState.updateCalculations { c4Pre with
      startX := some (((500 : ℝ) + 500) / 2 - ((500 - 500) / 2) * SF)
      startY := some (((100 : ℝ) + 300) / 2 - ((300 - 100) / 2) * SF)
      endX := some (((500 : ℝ) + 500) / 2 + ((500 - 500) / 2) * SF)
      endY := some (((100 : ℝ) + 300) / 2 + ((300 - 100) / 2) * SF) } := by
    show (quantizeStringPitch c4Pre none 48).2 = _
    rw [hq]
    rfl
  -- the target frequency is positive and at most 440 Hz
  have htf : 0 < midiToFrequency ((t : ℤ) : ℝ) := by
    unfold midiToFrequency
    exact mul_pos (by norm_num) (Real.rpow_pos_of_pos (by norm_num) _)
  have hpf440 : c4Pre.actualFrequency < 440 := by
    rw [hPreFval, div_lt_iff₀ (by norm_num)]
    nlinarith
  have hmidi69 : frequencyToMidi c4Pre.actualFrequency < 69 := by
    unfold frequencyToMidi
    have hratio1 : (0 : ℝ) < c4Pre.actualFrequency / 440 :=
      div_pos hFpos (by norm_num : (0 : ℝ) < 440)
    have hratio2 : c4Pre.actualFrequency / 440 < 1 := by
      rw [div_lt_one (by norm_num : (0 : ℝ) < 440)]
      exact hpf440
    have hlog := Real.logb_neg (by norm_num : (1 : ℝ) < 2) hratio1 hratio2
    linarith
  have ht69 : t ≤ 69 := by
    rw [hts, round_eq]
    have hlt : frequencyToMidi c4Pre.actualFrequency + 1 / 2 <
        ((70 : ℤ) : ℝ) := by
      push_cast
      linarith
    have hfl := Int.floor_lt.mpr hlt
    omega
  have htf440 : midiToFrequency ((t : ℤ) : ℝ) ≤ 440 := by
    unfold midiToFrequency
    have hexp : (((t : ℤ) : ℝ) - 69) / 12 ≤ 0 := by
      have h1 : ((t : ℤ) : ℝ) ≤ 69 := by exact_mod_cast ht69
      linarith
    have h2 := Real.rpow_le_one_of_one_le_of_nonpos
      (by norm_num : (1 : ℝ) ≤ 2) hexp
    nlinarith
  -- the required length is positive and exceeds 113 mm
  have h2tf : 0 < 2 * midiToFrequency ((t : ℤ) : ℝ) := by linarith
  have hreqpos : 0 < calculateWaveSpeed .steel .medium 120 /
      (2 * midiToFrequency ((t : ℤ) : ℝ)) * 1000 :=
    mul_pos (div_pos hv0 h2tf) (by norm_num)
  have hreq113 : 113 < calculateWaveSpeed .steel .medium 120 /
      (2 * midiToFrequency ((t : ℤ) : ℝ)) * 1000 := by
    have h1 : calculateWaveSpeed .steel .medium 120 / 880 ≤
        calculateWaveSpeed .steel .medium 120 /
          (2 * midiToFrequency ((t : ℤ) : ℝ)) :=
      div_le_div_of_nonneg_left (le_of_lt hv0) h2tf (by linarith)
    nlinarith
  have hSFval : SF = (calculateWaveSpeed .steel .medium 120 /
      (2 * midiToFrequency ((t : ℤ) : ℝ)) * 1000) / (200 * (1523 / 280)) := by
    rw [hSFs]
    unfold quantizeScaleFactorXY
    rw [hs200]
    simp only [WALL_WIDTH, CANVAS_WIDTH, FULL_STRING_LENGTH, CANVAS_HEIGHT]
    norm_num
  have hSFpos : 0 < SF := by
    rw [hSFval]
    exact div_pos hreqpos (by norm_num)
  -- post-state playable length
  have hpostLen : c4Post.playableLengthMm =
      (calculateWaveSpeed .steel .medium 120 /
        (2 * midiToFrequency ((t : ℤ) : ℝ)) * 1000) * (4268 / 7615) := by
    rw [hpost]
    rw [updateCalculations_playableLengthMm_draw _
      (((500 : ℝ) + 500) / 2 - ((500 - 500) / 2) * SF)
      (((100 : ℝ) + 300) / 2 - ((300 - 100) / 2) * SF)
      (((500 : ℝ) + 500) / 2 + ((500 - 500) / 2) * SF)
      (((100 : ℝ) + 300) / 2 + ((300 - 100) / 2) * SF)
      rfl rfl rfl rfl rfl]
    rw [show ((((500 : ℝ) + 500) / 2 + ((500 - 500) / 2) * SF) -
          (((500 : ℝ) + 500) / 2 - ((500 - 500) / 2) * SF)) *
          ((((500 : ℝ) + 500) / 2 + ((500 - 500) / 2) * SF) -
          (((500 : ℝ) + 500) / 2 - ((500 - 500) / 2) * SF)) +
          ((((100 : ℝ) + 300) / 2 + ((300 - 100) / 2) * SF) -
          (((100 : ℝ) + 300) / 2 - ((300 - 100) / 2) * SF)) *
          ((((100 : ℝ) + 300) / 2 + ((300 - 100) / 2) * SF) -
          (((100 : ℝ) + 300) / 2 - ((300 - 100) / 2) * SF)) =
        (200 * SF) ^ 2 by ring]
    rw [Real.sqrt_sq (by linarith)]
    simp only [FULL_STRING_LENGTH, CANVAS_HEIGHT, MIN_PLAYABLE_LENGTH]
    rw [hSFval]
    have he : (200 : ℝ) *
        ((calculateWaveSpeed MaterialKey.steel GaugeKey.medium 120 /
          (2 * midiToFrequency ((t : ℤ) : ℝ)) * 1000) / (200 * (1523 / 280))) *
        (2134 / 700) =
        (calculateWaveSpeed MaterialKey.steel GaugeKey.medium 120 /
          (2 * midiToFrequency ((t : ℤ) : ℝ)) * 1000) * (4268 / 7615) := by
      ring
    rw [he]
    exact max_eq_left (by nlinarith)
  -- post-state frequency and MIDI note
  have hpostF : c4Post.actualFrequency =
      calculateWaveSpeed .steel .medium 120 /
        (2 * (c4Post.playableLengthMm / 1000)) := by
    rw [hpost]
    exact updateCalculations_actualFrequency _
  have hpostFval : c4Post.actualFrequency =
      midiToFrequency ((t : ℤ) : ℝ) * (7615 / 4268) := by
    rw [hpostF, hpostLen]
    field_simp
    ring
  have hpostMidi : c4Post.actualMidiNote =
      frequencyToMidi (midiToFrequency ((t : ℤ) : ℝ) * (7615 / 4268)) := by
    have h1 : c4Post.actualMidiNote =
        frequencyToMidi c4Post.actualFrequency := by
      rw [hpost]
      exact updateCalculations_actualMidiNote _
    rw [h1, hpostFval]
  have hkey : frequencyToMidi
      (midiToFrequency ((t : ℤ) : ℝ) * (7615 / 4268)) =
      ((t : ℤ) : ℝ) + 12 * Real.logb 2 (7615 / 4268) := by
    unfold frequencyToMidi midiToFrequency
    rw [show (440 : ℝ) * 2 ^ ((((t : ℤ) : ℝ) - 69) / 12) * (7615 / 4268) /
        440 = 2 ^ ((((t : ℤ) : ℝ) - 69) / 12) * (7615 / 4268) by ring]
    rw [Real.logb_mul (ne_of_gt (Real.rpow_pos_of_pos (by norm_num) _))
      (by norm_num)]
    rw [Real.logb_rpow (by norm_num) (by norm_num)]
    ring
  have hpm : c4Pre.actualMidiNote =
      frequencyToMidi c4Pre.actualFrequency := rfl
  have hlogpos : 0 < Real.logb 2 (7615 / 4268) :=
    Real.logb_pos (by norm_num) (by norm_num)
  refine ⟨?_, ?_, ?_, ?_, ?_⟩
  · rw [hq]
  · rw [hpost, updateCalculations_startX, updateCalculations_endX]
    simp only [Option.getD_some]
    have hx : c4Pre.startX.getD 0 = (500 : ℝ) := rfl
    have hx2 : c4Pre.endX.getD 0 = (500 : ℝ) := rfl
    rw [hx, hx2]
    ring
  · rw [hpost, updateCalculations_startY, updateCalculations_endY]
    simp only [Option.getD_some]
    have hy : c4Pre.startY.getD 0 = (100 : ℝ) := rfl
    have hy2 : c4Pre.endY.getD 0 = (300 : ℝ) := rfl
    rw [hy, hy2]
    ring
  · rw [hpostMidi, hkey, hpm, ← hts]
  · rw [hpostMidi, hkey, hpm, ← hts]
    intro heq
    have h12 : (0 : ℝ) < 12 * Real.logb 2 (7615 / 4268) := by linarith
    linarith [heq]

/-- C7 (corrected): for every real `m` whose rounding is nonnegative,
`midiToNoteName` agrees with the spec's table lookup at index
`round m mod 12` with octave `floor (round m / 12) - 1`; in particular
`midiToNoteName 60 = "C4"`, `midiToNoteName 69 = "A4"` and
`midiToNoteName 36 = "C2"`. -/
theorem midiToNoteName_matches_spec :
    (∀ m : ℝ, 0 ≤ round m → midiToNoteName m = specNoteName m) ∧
      midiToNoteName 60 = "C4" ∧ midiToNoteName 69 = "A4" ∧
      midiToNoteName 36 = "C2" := by
  refine ⟨?_, ?_, ?_, ?_⟩
  · intro m hm
    simp only [midiToNoteName, specNoteName]
    rw [Int.tmod_eq_emod hm (by norm_num),
      if_pos (Int.emod_nonneg _ (by norm_num))]
  · rw [show (60 : ℝ) = ((60 : ℤ) : ℝ) by norm_num, midiToNoteName_intCast]
    decide
  · rw [show (69 : ℝ) = ((69 : ℤ) : ℝ) by norm_num, midiToNoteName_intCast]
    decide
  · rw [show (36 : ℝ) = ((36 : ℤ) : ℝ) by norm_num, midiToNoteName_intCast]
    decide

/-- C7 witness: the amended statement applied at `m = 60`. -/
theorem midiToNoteName_matches_spec_witness :
    midiToNoteName (60 : ℝ) = specNoteName (60 : ℝ) :=
  midiToNoteName_matches_spec.1 60 (by norm_num [round_eq])

/-- C7 counterexample: at MIDI −1 the source returns `"undefined-2"`
(JavaScript `%` gives the negative remainder −1, which indexes outside the
note table), while the claimed normalized table lookup gives `"B-2"`. -/
theorem midiToNoteName_negative_counterexample :
    midiToNoteName (-1 : ℝ) = "undefined-2" ∧
      specNoteName (-1 : ℝ) = "B-2" ∧
      midiToNoteName (-1 : ℝ) ≠ specNoteName (-1 : ℝ) := by
  rw [show (-1 : ℝ) = ((-1 : ℤ) : ℝ) by norm_num, midiToNoteName_intCast,
    specNoteName_intCast]
  refine ⟨by decide, by decide, by decide⟩

end WallHarp
